import Mathlib

/-!
Verification of `src/vs/workbench/api/common/extHostInteractiveSession.ts`:
a shallow embedding of the `ExtHostInteractiveSession` class (provider
registry, session store, and the `$provideInteractiveReply` orchestrator)
together with theorems about its behaviour.

Modelling conventions:
* JavaScript exceptions are modelled with `Except Err`; a capability that
  may throw returns `Except Err _`.
* `undefined`/`null` results are `Option.none`.
* Outbound proxy calls (`$acceptInteractiveResponseProgress`,
  `$acceptInteractiveSessionState`) and `logService` calls are recorded in
  an event list, in emission order.
* The `StopWatch` is modelled by an ambient clock: `ticks i` is the value
  `stopWatch.elapsed()` would return at the `i`-th progress report, and
  `endTick` the value it returns at the final `timings` computation.  A
  real stopwatch is monotone, which appears as the hypothesis
  `ticks 0 ≤ endTick` where needed.
* The provider's `provideResponseWithProgress` behaviour is data: the list
  of increments it reports through the progress sink, followed by its
  outcome (a result, `null`, or a thrown error).
* `typeConvert.CompletionItemKind.from` lives outside this file's source;
  it is passed in as an abstract conversion function `convKind`.
-/

namespace ExtHostInteractiveSession

/-- A thrown JavaScript error, reduced to the `message` field that the
orchestrator reads (`err.message`). -/
structure Err where
  message : String
deriving DecidableEq, Repr

/-- vscode.InteractiveResponse: the synchronous capability's result
(`res.content`, `res.followups`). -/
structure InteractiveResponse where
  content : String
  followups : Option (List String)
deriving DecidableEq, Repr

/-- Error details attached to a response
(`{ message, responseIsIncomplete }`). -/
structure InteractiveResponseErrorDetails where
  message : String
  responseIsIncomplete : Option Bool
deriving DecidableEq, Repr

/-- vscode.InteractiveResponseForProgress: the progressive capability's
final result (`followups`, `commands`, `errorDetails`).  The `commands`
entries are opaque to this file and modelled as strings. -/
structure InteractiveResponseForProgress where
  followups : Option (List String)
  commands : Option (List String)
  errorDetails : Option InteractiveResponseErrorDetails
deriving DecidableEq, Repr

/-- One run of `provideResponseWithProgress`: the content fragments it
reports through the progress sink, in order, then how the returned promise
settles (`.ok (some r)` a result, `.ok none` a null response, `.error e` a
thrown failure). -/
structure ProgressiveRun where
  increments : List String
  outcome : Except Err (Option InteractiveResponseForProgress)

/-- A slash command descriptor (`IInteractiveSlashCommand` shape): the
fields other than `kind` are opaque and modelled by `command` and
`detail`; `kind` is a numeric enum value. -/
structure SlashCommand where
  command : String
  detail : Option String
  kind : Nat
deriving DecidableEq, Repr

/-- vscode.InteractiveSession: the display identities read by
`$prepareInteractiveSession`, plus the optional `saveState` capability
(which may itself throw). -/
structure InteractiveSession where
  requesterName : Option String
  requesterIcon : Option String
  responderName : Option String
  responderIcon : Option String
  saveState : Option (Unit → Except Err String)

/-- vscode.InteractiveSessionProvider: each optional capability is an
`Option`-valued field, mirroring the presence checks in the source.
`provideResponse` and `provideResponseWithProgress` receive the request's
session and message (the two fields of the `requestObj` built at lines
132–135). -/
structure InteractiveSessionProvider where
  prepareSession : String → Except Err (Option InteractiveSession)
  resolveRequest : Option (InteractiveSession → String → Except Err (Option String))
  provideInitialSuggestions : Option (Unit → Except Err (Option (List String)))
  provideResponse : Option (InteractiveSession → String → Except Err (Option InteractiveResponse))
  provideResponseWithProgress : Option (InteractiveSession → String → ProgressiveRun)
  provideSlashCommands : Option (InteractiveSession → Except Err (Option (List SlashCommand)))

/-- The `InteractiveSessionProviderWrapper`: a registered provider entry
(the extension identity is reduced to its identifier string). -/
structure ProviderWrapper where
  extensionId : String
  provider : InteractiveSessionProvider

/-- An outbound effect: a proxy call or a log-service call. -/
inductive Event where
  /-- The proxy call `$acceptInteractiveResponseProgress(handle, sessionId, { responsePart })`. -/
  | progress (handle sessionId : Nat) (responsePart : String)
  /-- The proxy call `$acceptInteractiveSessionState(sessionId, newState)`. -/
  | sessionState (sessionId : Nat) (newState : String)
  /-- The call `logService.error(err)`. -/
  | logError (message : String)
  /-- The call `logService.warn(err)`. -/
  | logWarn (message : String)
  /-- The proxy call `$registerInteractiveSessionProvider(handle, id, hasProgress)`. -/
  | registerProvider (handle : Nat) (id : String) (hasProgress : Bool)
  /-- The proxy call `$unregisterInteractiveSessionProvider(handle)`. -/
  | unregisterProvider (handle : Nat)
deriving DecidableEq, Repr

/-- The mutable state of the class: the two id counters (`_pool`,
`_nextId`) and the two maps (`_interactiveSessionProvider`,
`_interactiveSessions`), each as an association list keyed by the integer
handle/id. -/
structure State where
  pool : Nat
  nextId : Nat
  providers : List (Nat × ProviderWrapper)
  sessions : List (Nat × InteractiveSession)

/-- The state at process start: both counters at zero, both maps empty. -/
def State.initial : State :=
  { pool := 0, nextId := 0, providers := [], sessions := [] }

/-- The method `registerInteractiveSessionProvider`: wrap the provider with a fresh
handle from `_pool`, store it, and notify the proxy (reporting whether
`provideResponseWithProgress` is present).  Returns the new state, the
handle, and the emitted events. -/
def registerInteractiveSessionProvider (st : State) (extensionId id : String)
    (provider : InteractiveSessionProvider) : State × Nat × List Event :=
  let handle := st.pool
  ({ st with
      pool := st.pool + 1
      providers := (handle, ⟨extensionId, provider⟩) :: st.providers },
   handle,
   [Event.registerProvider handle id provider.provideResponseWithProgress.isSome])

/-- The disposable returned by registration: unregister the handle and
notify the proxy. -/
def unregisterInteractiveSessionProvider (st : State) (handle : Nat) :
    State × List Event :=
  ({ st with providers := st.providers.filter (fun p => p.1 ≠ handle) },
   [Event.unregisterProvider handle])

/-- The session-descriptor DTO built by `$prepareInteractiveSession`. -/
structure InteractiveSessionDto where
  id : Nat
  requesterUsername : Option String
  requesterAvatarIconUri : Option String
  responderUsername : Option String
  responderAvatarIconUri : Option String
deriving DecidableEq, Repr

/-- The operation `$prepareInteractiveSession(handle, initialState, token)`: resolve the
provider (absent → `undefined`), call `prepareSession` (a throw
propagates), and on a truthy session allocate an id from `_nextId`, store
the session and return its descriptor. -/
def prepareInteractiveSession (st : State) (handle : Nat)
    (initialState : String) : State × Except Err (Option InteractiveSessionDto) :=
  match st.providers.lookup handle with
  | none => (st, .ok none)
  | some entry =>
    match entry.provider.prepareSession initialState with
    | .error e => (st, .error e)
    | .ok none => (st, .ok none)
    | .ok (some session) =>
      let id := st.nextId
      ({ st with
          nextId := st.nextId + 1
          sessions := (id, session) :: st.sessions },
       .ok (some
        { id
          requesterUsername := session.requesterName
          requesterAvatarIconUri := session.requesterIcon
          responderUsername := session.responderName
          responderAvatarIconUri := session.responderIcon }))

/-- The operation `$resolveInteractiveRequest(handle, sessionId, context, token)`:
resolve provider, session and the optional capability; each absence is
`undefined`.  On a truthy request, return only its message. -/
def resolveInteractiveRequest (st : State) (handle sessionId : Nat)
    (context : String) : Except Err (Option String) :=
  match st.providers.lookup handle with
  | none => .ok none
  | some entry =>
    match st.sessions.lookup sessionId with
    | none => .ok none
    | some realSession =>
      match entry.provider.resolveRequest with
      | none => .ok none
      | some f =>
        match f realSession context with
        | .error e => .error e
        | .ok (some message) => .ok (some message)
        | .ok none => .ok none

/-- The operation `$provideInitialSuggestions(handle, token)`: resolve provider and
capability, then return the result with null normalized to `undefined`
(`withNullAsUndefined`; both map to `none` here). -/
def provideInitialSuggestions (st : State) (handle : Nat) :
    Except Err (Option (List String)) :=
  match st.providers.lookup handle with
  | none => .ok none
  | some entry =>
    match entry.provider.provideInitialSuggestions with
    | none => .ok none
    | some f => f ()

/-- The timing record of a response DTO. -/
structure Timings where
  firstProgress : Nat
  totalElapsed : Nat
deriving DecidableEq, Repr

/-- The `IInteractiveResponseDto` returned by `$provideInteractiveReply`.
The synchronous branch leaves `commandFollowups` and `errorDetails`
unset. -/
structure InteractiveResponseDto where
  followups : Option (List String)
  commandFollowups : Option (List String)
  errorDetails : Option InteractiveResponseErrorDetails
  timings : Timings
deriving DecidableEq, Repr

/-- The progress sink built in the progressive branch: fold over the
provider's reported increments (starting at report index `i` with current
`firstProgress` value `fp`); at each report, record `stopWatch.elapsed()`
(`ticks i`) iff `firstProgress` is still unset, and forward the content
fragment to the proxy.  Returns the final `firstProgress` and the emitted
events. -/
def runProgressSink (handle sessionId : Nat) (ticks : Nat → Nat) :
    Nat → Option Nat → List String → Option Nat × List Event
  | _, fp, [] => (fp, [])
  | i, fp, c :: rest =>
    let fp' := match fp with
      | none => some (ticks i)
      | some t => some t
    let (fpEnd, evs) := runProgressSink handle sessionId ticks (i + 1) fp' rest
    (fpEnd, Event.progress handle sessionId c :: evs)

/-- The `try { saveState } catch { warn }` block of the progressive branch
(lines 174–181): if the session has `saveState`, call it and forward the
new state; a throw is logged at warning severity and swallowed. -/
def trySaveState (sessionId : Nat) (realSession : InteractiveSession) :
    List Event :=
  match realSession.saveState with
  | none => []
  | some save =>
    match save () with
    | .ok newState => [Event.sessionState sessionId newState]
    | .error e => [Event.logWarn e.message]

/-- The synchronous branch of `$provideInteractiveReply` (lines 137–150):
call `provideResponse` (a throw propagates); if the session has
`saveState`, call it (a throw propagates here too — there is no catch in
this branch) and forward the new state; a falsy result is `undefined`;
otherwise forward the result's content as one progress increment and
return its follow-ups with a zero timing record. -/
def syncBranch (handle sessionId : Nat) (realSession : InteractiveSession)
    (f : InteractiveSession → String → Except Err (Option InteractiveResponse))
    (message : String) :
    Except Err (Option InteractiveResponseDto) × List Event :=
  match f realSession message with
  | .error e => (.error e, [])
  | .ok res =>
    match realSession.saveState with
    | some save =>
      match save () with
      | .error e => (.error e, [])
      | .ok newState =>
        let stateEvs := [Event.sessionState sessionId newState]
        match res with
        | none => (.ok none, stateEvs)
        | some r =>
          (.ok (some
            { followups := r.followups
              commandFollowups := none
              errorDetails := none
              timings := { firstProgress := 0, totalElapsed := 0 } }),
           stateEvs ++ [Event.progress handle sessionId r.content])
    | none =>
      match res with
      | none => (.ok none, [])
      | some r =>
        (.ok (some
          { followups := r.followups
            commandFollowups := none
            errorDetails := none
            timings := { firstProgress := 0, totalElapsed := 0 } }),
         [Event.progress handle sessionId r.content])

/-- The `try/catch` around `provideResponseWithProgress` (lines 163–172):
a result is used as-is; a null result is replaced by an error response
with the empty-response message; a thrown failure is replaced by an error
response embedding the failure's message with `responseIsIncomplete: true`
and is logged at error severity. -/
def progressiveCatch (run : ProgressiveRun) :
    InteractiveResponseForProgress × List Event :=
  match run.outcome with
  | .ok (some r) => (r, [])
  | .ok none =>
    ({ followups := none, commands := none
       errorDetails := some
        { message := "Provider returned null response"
          responseIsIncomplete := none } },
     [])
  | .error e =>
    ({ followups := none, commands := none
       errorDetails := some
        { message := "Error from provider: " ++ e.message
          responseIsIncomplete := some true } },
     [Event.logError e.message])

/-- The progressive branch of `$provideInteractiveReply` (lines 151–184):
run the provider with the progress sink, normalize its outcome through
the catch, attempt `saveState` with the warning-only catch, and assemble
the DTO with timings `{ firstProgress ?? 0, stopWatch.elapsed() }`. -/
def progressiveBranch (handle sessionId : Nat)
    (realSession : InteractiveSession) (run : ProgressiveRun)
    (ticks : Nat → Nat) (endTick : Nat) :
    Except Err (Option InteractiveResponseDto) × List Event :=
  let (firstProgress, progressEvs) :=
    runProgressSink handle sessionId ticks 0 none run.increments
  let (result, catchEvs) := progressiveCatch run
  let saveEvs := trySaveState sessionId realSession
  let timings : Timings :=
    { firstProgress := firstProgress.getD 0, totalElapsed := endTick }
  (.ok (some
    { followups := result.followups
      commandFollowups := result.commands
      errorDetails := result.errorDetails
      timings }),
   progressEvs ++ catchEvs ++ saveEvs)

/-- The operation `$provideInteractiveReply(handle, sessionId, request, token)`.
Mirrors the source: resolve provider then session (absent →
`undefined`); if `provideResponse` is present take the synchronous
branch; otherwise if `provideResponseWithProgress` is present take the
progressive branch with the provider's run; otherwise throw.  Returns the
outcome and the events emitted before it. -/
def provideInteractiveReply (st : State) (handle sessionId : Nat)
    (message : String) (ticks : Nat → Nat) (endTick : Nat) :
    Except Err (Option InteractiveResponseDto) × List Event :=
  match st.providers.lookup handle with
  | none => (.ok none, [])
  | some entry =>
    match st.sessions.lookup sessionId with
    | none => (.ok none, [])
    | some realSession =>
      match entry.provider.provideResponse with
      | some f => syncBranch handle sessionId realSession f message
      | none =>
        match entry.provider.provideResponseWithProgress with
        | some g =>
          progressiveBranch handle sessionId realSession
            (g realSession message) ticks endTick
        | none =>
          (.error
            ⟨"Provider must implement either provideResponse or provideResponseWithProgress"⟩,
           [])

/-- The operation `$provideSlashCommands(handle, sessionId, token)`: resolve provider,
session and capability (absent → `undefined`); call the capability (a
throw propagates) and map each command's `kind` through the shared
conversion `convKind`, spreading all other fields unchanged. -/
def provideSlashCommands (st : State) (convKind : Nat → Nat)
    (handle sessionId : Nat) : Except Err (Option (List SlashCommand)) :=
  match st.providers.lookup handle with
  | none => .ok none
  | some entry =>
    match st.sessions.lookup sessionId with
    | none => .ok none
    | some realSession =>
      match entry.provider.provideSlashCommands with
      | none => .ok none
      | some f =>
        match f realSession with
        | .error e => .error e
        | .ok none => .ok none
        | .ok (some cmds) =>
          .ok (some (cmds.map fun c => { c with kind := convKind c.kind }))

/-- The operation `$releaseSession(sessionId)`: drop the session reference. -/
def releaseSession (st : State) (sessionId : Nat) : State :=
  { st with sessions := st.sessions.filter (fun p => p.1 ≠ sessionId) }

/-- The response DTO the progressive branch produces, written so that it
visibly depends only on the provider's run, the clock readings and the
end reading — in particular not on the session's `saveState`. -/
def progressiveDto (run : ProgressiveRun) (ticks : Nat → Nat)
    (endTick : Nat) : InteractiveResponseDto :=
  let result := (progressiveCatch run).1
  { followups := result.followups
    commandFollowups := result.commands
    errorDetails := result.errorDetails
    timings :=
      { firstProgress :=
          match run.increments with
          | [] => 0
          | _ :: _ => ticks 0
        totalElapsed := endTick } }

/-! ### Concrete fixtures

Concrete providers, sessions and states used by counterexamples and
witnesses. -/

/-- A provider implementing no optional capability. -/
def noCapProvider : InteractiveSessionProvider :=
  { prepareSession := fun _ => .ok none
    resolveRequest := none
    provideInitialSuggestions := none
    provideResponse := none
    provideResponseWithProgress := none
    provideSlashCommands := none }

/-- A session with no display identities and no `saveState`. -/
def plainSession : InteractiveSession :=
  { requesterName := none, requesterIcon := none, responderName := none
    responderIcon := none, saveState := none }

/-- A session whose `saveState` throws. -/
def throwingSaveSession : InteractiveSession :=
  { plainSession with saveState := some fun _ => .error ⟨"save boom"⟩ }

/-- A synchronous capability returning content `"syncContent"` with
follow-ups `["a", "b"]`. -/
def syncCapability (_ : InteractiveSession) (_ : String) :
    Except Err (Option InteractiveResponse) :=
  .ok (some { content := "syncContent", followups := some ["a", "b"] })

/-- A provider implementing only `provideResponse`. -/
def syncProvider : InteractiveSessionProvider :=
  { noCapProvider with provideResponse := some syncCapability }

/-- A progressive run emitting two increments then succeeding with
follow-ups `["prog"]`. -/
def progRunOk : ProgressiveRun :=
  { increments := ["p1", "p2"]
    outcome := .ok (some
      { followups := some ["prog"], commands := none, errorDetails := none }) }

/-- A provider implementing only `provideResponseWithProgress`. -/
def progProvider : InteractiveSessionProvider :=
  { noCapProvider with
      provideResponseWithProgress := some fun _ _ => progRunOk }

/-- A provider implementing both response capabilities. -/
def bothProvider : InteractiveSessionProvider :=
  { syncProvider with
      provideResponseWithProgress := some fun _ _ => progRunOk }

/-- A provider whose progressive capability emits one increment then
throws. -/
def throwingProgProvider : InteractiveSessionProvider :=
  { noCapProvider with
      provideResponseWithProgress := some fun _ _ =>
        { increments := ["partial"], outcome := .error ⟨"prog boom"⟩ } }

/-- A provider whose `prepareSession` yields a session. -/
def preparingProvider : InteractiveSessionProvider :=
  { noCapProvider with prepareSession := fun _ => .ok (some plainSession) }

/-- A provider enumerating two slash commands. -/
def slashProvider : InteractiveSessionProvider :=
  { noCapProvider with
      provideSlashCommands := some fun _ => .ok (some
        [{ command := "fix", detail := some "fix it", kind := 1 },
         { command := "explain", detail := none, kind := 4 }]) }

/-- A one-provider, one-session state: provider `p` at handle 0 and
session `sess` at id 0. -/
def mkState (p : InteractiveSessionProvider) (sess : InteractiveSession) :
    State :=
  { pool := 1, nextId := 1, providers := [(0, ⟨"ext", p⟩)]
    sessions := [(0, sess)] }

/-- Once `firstProgress` is set, no later report changes it. -/
theorem runProgressSink_fst_some (handle sessionId : Nat) (ticks : Nat → Nat)
    (t : Nat) (incs : List String) : ∀ i,
    (runProgressSink handle sessionId ticks i (some t) incs).1 = some t := by
  induction incs with
  | nil => intro i; rfl
  | cons c rest ih =>
    intro i
    simp only [runProgressSink, ih (i + 1)]

/-- Starting unset at report index `i`, the recorded `firstProgress` is
the clock reading at the first report, and `none` when nothing was
reported. -/
theorem runProgressSink_fst (handle sessionId : Nat) (ticks : Nat → Nat)
    (i : Nat) (incs : List String) :
    (runProgressSink handle sessionId ticks i none incs).1 =
      match incs with
      | [] => none
      | _ :: _ => some (ticks i) := by
  cases incs with
  | nil => rfl
  | cons c rest =>
    simp only [runProgressSink,
      runProgressSink_fst_some handle sessionId ticks (ticks i) rest (i + 1)]

/-- The sink forwards exactly the provider's increments, in order, tagged
with the handle and session id; the event trace does not depend on the
clock or on the running `firstProgress`. -/
theorem runProgressSink_snd (handle sessionId : Nat) (ticks : Nat → Nat)
    (incs : List String) : ∀ i fp,
    (runProgressSink handle sessionId ticks i fp incs).2 =
      incs.map (Event.progress handle sessionId) := by
  induction incs with
  | nil => intro i fp; rfl
  | cons c rest ih =>
    intro i fp
    simp only [runProgressSink, List.map_cons]
    cases fp <;> simp only [ih]

/-- Characterization of the progressive branch: it returns the
`saveState`-independent DTO, and its event trace is the forwarded
increments, then the catch's log (if any), then the `saveState`
attempt's event. -/
theorem progressiveBranch_eq (handle sessionId : Nat)
    (realSession : InteractiveSession) (run : ProgressiveRun)
    (ticks : Nat → Nat) (endTick : Nat) :
    progressiveBranch handle sessionId realSession run ticks endTick =
      (.ok (some (progressiveDto run ticks endTick)),
       run.increments.map (Event.progress handle sessionId) ++
         (progressiveCatch run).2 ++ trySaveState sessionId realSession) := by
  unfold progressiveBranch progressiveDto
  simp only [runProgressSink_fst, runProgressSink_snd]
  cases incs : run.increments <;> rfl

/-- Dispatch of `$provideInteractiveReply` once provider and session
resolve: `provideResponse` first, `provideResponseWithProgress` second,
otherwise the protocol-violation error. -/
theorem provideInteractiveReply_dispatch (st : State)
    (handle sessionId : Nat) (message : String) (ticks : Nat → Nat)
    (endTick : Nat) (entry : ProviderWrapper) (sess : InteractiveSession)
    (hE : st.providers.lookup handle = some entry)
    (hS : st.sessions.lookup sessionId = some sess) :
    provideInteractiveReply st handle sessionId message ticks endTick =
      match entry.provider.provideResponse with
      | some f => syncBranch handle sessionId sess f message
      | none =>
        match entry.provider.provideResponseWithProgress with
        | some g =>
          progressiveBranch handle sessionId sess (g sess message) ticks
            endTick
        | none =>
          (.error
            ⟨"Provider must implement either provideResponse or provideResponseWithProgress"⟩,
           []) := by
  unfold provideInteractiveReply
  rw [hE, hS]

/-- Whether an event is a forwarded progress increment
(`$acceptInteractiveResponseProgress`). -/
def Event.isProgress : Event → Bool
  | .progress _ _ _ => true
  | _ => false

/-- A provider whose `prepareSession` succeeds on `"ok"`, yields no
session on `"none"`, and throws otherwise. -/
def flakyPrepareProvider : InteractiveSessionProvider :=
  { noCapProvider with
      prepareSession := fun s =>
        if s = "ok" then .ok (some plainSession)
        else if s = "none" then .ok none
        else .error ⟨"prepare boom"⟩ }

/-- A state holding `flakyPrepareProvider` at handle 0 with the session
counter at 5. -/
def flakyState : State :=
  { pool := 1, nextId := 5, providers := [(0, ⟨"ext", flakyPrepareProvider⟩)]
    sessions := [] }

/-- State `flakyState` after one successful preparation. -/
def flakyState1 : State :=
  { pool := 1, nextId := 6, providers := [(0, ⟨"ext", flakyPrepareProvider⟩)]
    sessions := [(5, plainSession)] }

/-- A state holding `preparingProvider` at handle 0 with fresh counters. -/
def prepState : State :=
  { pool := 1, nextId := 0, providers := [(0, ⟨"ext", preparingProvider⟩)]
    sessions := [] }

/-- State `prepState` after one successful preparation. -/
def prepState1 : State :=
  { pool := 1, nextId := 1, providers := [(0, ⟨"ext", preparingProvider⟩)]
    sessions := [(0, plainSession)] }

/-- State `prepState` after two successful preparations. -/
def prepState2 : State :=
  { pool := 1, nextId := 2, providers := [(0, ⟨"ext", preparingProvider⟩)]
    sessions := [(1, plainSession), (0, plainSession)] }

/-- The descriptor of the first session prepared from `prepState`. -/
def prepDto0 : InteractiveSessionDto :=
  { id := 0, requesterUsername := none, requesterAvatarIconUri := none
    responderUsername := none, responderAvatarIconUri := none }

/-- The descriptor of the second session prepared from `prepState`. -/
def prepDto1 : InteractiveSessionDto :=
  { id := 1, requesterUsername := none, requesterAvatarIconUri := none
    responderUsername := none, responderAvatarIconUri := none }

/-- The descriptor of the session prepared from `flakyState`. -/
def flakyDto : InteractiveSessionDto :=
  { id := 5, requesterUsername := none, requesterAvatarIconUri := none
    responderUsername := none, responderAvatarIconUri := none }

/-! ### Claims -/

/-- C1, the claim as stated, is false of the code: against a provider
exposing both `provideResponse` and `provideResponseWithProgress`, the
reply takes the synchronous protocol — the returned DTO carries the
synchronous result's follow-ups `["a","b"]` and zero timings, and the
single forwarded increment is the synchronous result's content — whereas
the progressive protocol on the same inputs would have returned
follow-ups `["prog"]`, timings `{7, 9}` and forwarded the two increments
`"p1"`, `"p2"`. -/
theorem claim1_counterexample :
    provideInteractiveReply (mkState bothProvider plainSession) 0 0 "m"
        (fun _ => 7) 9 =
      (.ok (some
        { followups := some ["a", "b"]
          commandFollowups := none
          errorDetails := none
          timings := { firstProgress := 0, totalElapsed := 0 } }),
       [Event.progress 0 0 "syncContent"]) ∧
    progressiveBranch 0 0 plainSession progRunOk (fun _ => 7) 9 =
      (.ok (some
        { followups := some ["prog"]
          commandFollowups := none
          errorDetails := none
          timings := { firstProgress := 7, totalElapsed := 9 } }),
       [Event.progress 0 0 "p1", Event.progress 0 0 "p2"]) :=
  ⟨rfl, rfl⟩

/-- C1 (amended): once provider and session resolve, the synchronous
protocol is invoked whenever `provideResponse` is present — even when
`provideResponseWithProgress` is also present — and the progressive
protocol is invoked exactly when `provideResponse` is absent and
`provideResponseWithProgress` is present. -/
theorem claim1_sync_preferred (st : State) (handle sessionId : Nat)
    (message : String) (ticks : Nat → Nat) (endTick : Nat)
    (entry : ProviderWrapper) (sess : InteractiveSession)
    (hE : st.providers.lookup handle = some entry)
    (hS : st.sessions.lookup sessionId = some sess) :
    (∀ f, entry.provider.provideResponse = some f →
      provideInteractiveReply st handle sessionId message ticks endTick =
        syncBranch handle sessionId sess f message) ∧
    (entry.provider.provideResponse = none →
      ∀ g, entry.provider.provideResponseWithProgress = some g →
        provideInteractiveReply st handle sessionId message ticks endTick =
          progressiveBranch handle sessionId sess (g sess message) ticks
            endTick) := by
  constructor
  · intro f hF
    rw [provideInteractiveReply_dispatch st handle sessionId message ticks
      endTick entry sess hE hS, hF]
  · intro hNone g hG
    rw [provideInteractiveReply_dispatch st handle sessionId message ticks
      endTick entry sess hE hS, hNone, hG]

/-- C1 witness: against the concrete both-capability provider, the reply
equals the synchronous branch's output. -/
theorem claim1_sync_preferred_witness :
    provideInteractiveReply (mkState bothProvider plainSession) 0 0 "m"
        (fun _ => 7) 9 =
      syncBranch 0 0 plainSession syncCapability "m" :=
  (claim1_sync_preferred (mkState bothProvider plainSession) 0 0 "m"
    (fun _ => 7) 9 ⟨"ext", bothProvider⟩ plainSession rfl rfl).1
    syncCapability rfl

/-- C2, the claim as stated, is false of the code: in the synchronous
mode there is no catch around `saveState`, so against a synchronous
provider and a session whose `saveState` throws `"save boom"`, the throw
propagates to the caller (and nothing is logged). -/
theorem claim2_counterexample :
    provideInteractiveReply (mkState syncProvider throwingSaveSession) 0 0
        "m" (fun _ => 0) 0 =
      (.error ⟨"save boom"⟩, []) :=
  rfl

/-- C2 (amended): in the progressive mode only, a `saveState` failure is
recovered locally — logged at warning severity — and never masks or
replaces the already-produced response: the returned DTO is exactly the
`saveState`-independent progressive DTO, and no exception is raised.  (In
the synchronous mode a `saveState` failure propagates to the caller.) -/
theorem claim2_progressive_save_contained (st : State)
    (handle sessionId : Nat) (message : String) (ticks : Nat → Nat)
    (endTick : Nat) (entry : ProviderWrapper) (sess : InteractiveSession)
    (save : Unit → Except Err String) (e : Err)
    (hE : st.providers.lookup handle = some entry)
    (hS : st.sessions.lookup sessionId = some sess)
    (hNoSync : entry.provider.provideResponse = none)
    (g : InteractiveSession → String → ProgressiveRun)
    (hG : entry.provider.provideResponseWithProgress = some g)
    (hSave : sess.saveState = some save)
    (hThrow : save () = .error e) :
    provideInteractiveReply st handle sessionId message ticks endTick =
      (.ok (some (progressiveDto (g sess message) ticks endTick)),
       (g sess message).increments.map (Event.progress handle sessionId) ++
         (progressiveCatch (g sess message)).2 ++
         [Event.logWarn e.message]) ∧
    Event.logWarn e.message ∈
      (provideInteractiveReply st handle sessionId message ticks endTick).2 := by
  have hmain :
      provideInteractiveReply st handle sessionId message ticks endTick =
        (.ok (some (progressiveDto (g sess message) ticks endTick)),
         (g sess message).increments.map (Event.progress handle sessionId) ++
           (progressiveCatch (g sess message)).2 ++
           [Event.logWarn e.message]) := by
    rw [provideInteractiveReply_dispatch st handle sessionId message ticks
      endTick entry sess hE hS, hNoSync, hG]
    show progressiveBranch handle sessionId sess (g sess message) ticks
      endTick = _
    rw [progressiveBranch_eq]
    simp only [trySaveState, hSave, hThrow]
  refine ⟨hmain, ?_⟩
  rw [hmain]
  simp

/-- C2 witness: against the concrete progressive provider and the
throwing-`saveState` session, the reply is the progressive DTO with the
warning logged. -/
theorem claim2_witness :
    provideInteractiveReply (mkState progProvider throwingSaveSession) 0 0
        "m" (fun _ => 3) 8 =
      (.ok (some (progressiveDto progRunOk (fun _ => 3) 8)),
       (["p1", "p2"].map (Event.progress 0 0)) ++
         (progressiveCatch progRunOk).2 ++ [Event.logWarn "save boom"]) ∧
    Event.logWarn "save boom" ∈
      (provideInteractiveReply (mkState progProvider throwingSaveSession)
        0 0 "m" (fun _ => 3) 8).2 :=
  claim2_progressive_save_contained
    (mkState progProvider throwingSaveSession) 0 0 "m" (fun _ => 3) 8
    ⟨"ext", progProvider⟩ throwingSaveSession
    (fun _ => .error ⟨"save boom"⟩) ⟨"save boom"⟩ rfl rfl rfl
    (fun _ _ => progRunOk) rfl rfl rfl

/-- C3: once provider and session resolve, a provider exposing neither
`provideResponse` nor `provideResponseWithProgress` makes
`$provideInteractiveReply` throw the protocol-violation error — an
outcome that is not `.ok`, hence distinguishable from every not-found
outcome (which returns `.ok none` without raising). -/
theorem claim3_protocol_violation (st : State) (handle sessionId : Nat)
    (message : String) (ticks : Nat → Nat) (endTick : Nat)
    (entry : ProviderWrapper) (sess : InteractiveSession)
    (hE : st.providers.lookup handle = some entry)
    (hS : st.sessions.lookup sessionId = some sess)
    (h1 : entry.provider.provideResponse = none)
    (h2 : entry.provider.provideResponseWithProgress = none) :
    provideInteractiveReply st handle sessionId message ticks endTick =
      (.error
        ⟨"Provider must implement either provideResponse or provideResponseWithProgress"⟩,
       []) ∧
    ∀ dto : Option InteractiveResponseDto,
      (provideInteractiveReply st handle sessionId message ticks
        endTick).1 ≠ .ok dto := by
  have hmain :
      provideInteractiveReply st handle sessionId message ticks endTick =
        (.error
          ⟨"Provider must implement either provideResponse or provideResponseWithProgress"⟩,
         []) := by
    rw [provideInteractiveReply_dispatch st handle sessionId message ticks
      endTick entry sess hE hS, h1, h2]
  refine ⟨hmain, ?_⟩
  intro dto
  rw [hmain]
  simp

/-- C3 witness: against the concrete no-capability provider, the reply
throws the protocol-violation error. -/
theorem claim3_witness :
    provideInteractiveReply (mkState noCapProvider plainSession) 0 0 "m"
        (fun _ => 0) 0 =
      (.error
        ⟨"Provider must implement either provideResponse or provideResponseWithProgress"⟩,
       []) ∧
    ∀ dto : Option InteractiveResponseDto,
      (provideInteractiveReply (mkState noCapProvider plainSession) 0 0
        "m" (fun _ => 0) 0).1 ≠ .ok dto :=
  claim3_protocol_violation (mkState noCapProvider plainSession) 0 0 "m"
    (fun _ => 0) 0 ⟨"ext", noCapProvider⟩ plainSession rfl rfl rfl rfl

/-- C4: in the progressive mode, a thrown provider failure is not
re-raised: the reply is a well-formed DTO whose error details embed the
failure's message with `responseIsIncomplete = true`, and the failure is
logged at error severity. -/
theorem claim4_progressive_failure_contained (st : State)
    (handle sessionId : Nat) (message : String) (ticks : Nat → Nat)
    (endTick : Nat) (entry : ProviderWrapper) (sess : InteractiveSession)
    (e : Err)
    (hE : st.providers.lookup handle = some entry)
    (hS : st.sessions.lookup sessionId = some sess)
    (hNoSync : entry.provider.provideResponse = none)
    (g : InteractiveSession → String → ProgressiveRun)
    (hG : entry.provider.provideResponseWithProgress = some g)
    (hOut : (g sess message).outcome = .error e) :
    ∃ dto,
      (provideInteractiveReply st handle sessionId message ticks
        endTick).1 = .ok (some dto) ∧
      dto.errorDetails = some
        { message := "Error from provider: " ++ e.message
          responseIsIncomplete := some true } ∧
      Event.logError e.message ∈
        (provideInteractiveReply st handle sessionId message ticks
          endTick).2 := by
  rw [provideInteractiveReply_dispatch st handle sessionId message ticks
    endTick entry sess hE hS, hNoSync, hG]
  show ∃ dto,
    (progressiveBranch handle sessionId sess (g sess message) ticks
      endTick).1 = .ok (some dto) ∧ _ ∧
    Event.logError e.message ∈
      (progressiveBranch handle sessionId sess (g sess message) ticks
        endTick).2
  rw [progressiveBranch_eq]
  refine ⟨progressiveDto (g sess message) ticks endTick, rfl, ?_, ?_⟩
  · simp [progressiveDto, progressiveCatch, hOut]
  · simp [progressiveCatch, hOut]

/-- C4 witness: the concrete provider whose progressive capability emits
one increment then throws `"prog boom"` yields a DTO embedding the
message with the partial flag set, and the error is logged. -/
theorem claim4_witness :
    ∃ dto,
      (provideInteractiveReply
        (mkState throwingProgProvider plainSession) 0 0 "m" (fun _ => 2)
        5).1 = .ok (some dto) ∧
      dto.errorDetails = some
        { message := "Error from provider: " ++ "prog boom"
          responseIsIncomplete := some true } ∧
      Event.logError "prog boom" ∈
        (provideInteractiveReply
          (mkState throwingProgProvider plainSession) 0 0 "m"
          (fun _ => 2) 5).2 :=
  claim4_progressive_failure_contained
    (mkState throwingProgProvider plainSession) 0 0 "m" (fun _ => 2) 5
    ⟨"ext", throwingProgProvider⟩ plainSession ⟨"prog boom"⟩ rfl rfl rfl
    (fun _ _ =>
      { increments := ["partial"], outcome := .error ⟨"prog boom"⟩ })
    rfl rfl

/-- C5: in the synchronous mode, when `provideResponse` returns a result
with follow-ups `["a","b"]` (and `saveState`, if present, does not
throw), the reply DTO carries exactly those follow-ups with timings
`{firstProgress := 0, totalElapsed := 0}`, and exactly one progress
increment — carrying the result's content — is forwarded before the
response is returned. -/
theorem claim5_sync_response (st : State) (handle sessionId : Nat)
    (message : String) (ticks : Nat → Nat) (endTick : Nat)
    (entry : ProviderWrapper) (sess : InteractiveSession)
    (f : InteractiveSession → String → Except Err (Option InteractiveResponse))
    (content : String)
    (hE : st.providers.lookup handle = some entry)
    (hS : st.sessions.lookup sessionId = some sess)
    (hF : entry.provider.provideResponse = some f)
    (hRes : f sess message =
      .ok (some { content := content, followups := some ["a", "b"] }))
    (hSave : sess.saveState = none ∨
      ∃ save s, sess.saveState = some save ∧ save () = .ok s) :
    (provideInteractiveReply st handle sessionId message ticks endTick).1 =
      .ok (some
        { followups := some ["a", "b"]
          commandFollowups := none
          errorDetails := none
          timings := { firstProgress := 0, totalElapsed := 0 } }) ∧
    ((provideInteractiveReply st handle sessionId message ticks
      endTick).2).filter Event.isProgress =
      [Event.progress handle sessionId content] := by
  have hb : provideInteractiveReply st handle sessionId message ticks
      endTick = syncBranch handle sessionId sess f message := by
    rw [provideInteractiveReply_dispatch st handle sessionId message ticks
      endTick entry sess hE hS, hF]
  rw [hb]
  rcases hSave with hnone | ⟨save, s, hsv, hok⟩
  · simp [syncBranch, hRes, hnone, Event.isProgress]
  · simp [syncBranch, hRes, hsv, hok, Event.isProgress]

/-- C5 witness: the concrete synchronous provider yields follow-ups
`["a","b"]`, zero timings, and one forwarded increment with its
content. -/
theorem claim5_witness :
    (provideInteractiveReply (mkState syncProvider plainSession) 0 0 "m"
      (fun _ => 0) 0).1 =
      .ok (some
        { followups := some ["a", "b"]
          commandFollowups := none
          errorDetails := none
          timings := { firstProgress := 0, totalElapsed := 0 } }) ∧
    ((provideInteractiveReply (mkState syncProvider plainSession) 0 0 "m"
      (fun _ => 0) 0).2).filter Event.isProgress =
      [Event.progress 0 0 "syncContent"] :=
  claim5_sync_response (mkState syncProvider plainSession) 0 0 "m"
    (fun _ => 0) 0 ⟨"ext", syncProvider⟩ plainSession syncCapability
    "syncContent" rfl rfl rfl rfl (Or.inl rfl)

/-- C6: an unregistered provider handle makes every boundary operation
taking it return `.ok none` (absent, without raising) and leaves the
state unchanged, and an unknown session id makes every boundary operation
taking it return `.ok none` for an arbitrary handle as well. -/
theorem claim6_not_found (st : State) (handle handle2 sessionId : Nat)
    (initialState context message : String) (ticks : Nat → Nat)
    (endTick : Nat) (convKind : Nat → Nat)
    (hH : st.providers.lookup handle = none)
    (hS : st.sessions.lookup sessionId = none) :
    (prepareInteractiveSession st handle initialState).2 = .ok none ∧
    (prepareInteractiveSession st handle initialState).1 = st ∧
    resolveInteractiveRequest st handle sessionId context = .ok none ∧
    provideInitialSuggestions st handle = .ok none ∧
    (provideInteractiveReply st handle sessionId message ticks
      endTick).1 = .ok none ∧
    provideSlashCommands st convKind handle sessionId = .ok none ∧
    resolveInteractiveRequest st handle2 sessionId context = .ok none ∧
    (provideInteractiveReply st handle2 sessionId message ticks
      endTick).1 = .ok none ∧
    provideSlashCommands st convKind handle2 sessionId = .ok none := by
  refine ⟨?_, ?_, ?_, ?_, ?_, ?_, ?_, ?_, ?_⟩
  · unfold prepareInteractiveSession; rw [hH]
  · unfold prepareInteractiveSession; rw [hH]
  · unfold resolveInteractiveRequest; rw [hH]
  · unfold provideInitialSuggestions; rw [hH]
  · unfold provideInteractiveReply; rw [hH]
  · unfold provideSlashCommands; rw [hH]
  · unfold resolveInteractiveRequest
    cases hl : st.providers.lookup handle2 <;> simp [hS]
  · unfold provideInteractiveReply
    cases hl : st.providers.lookup handle2 <;> simp [hS]
  · unfold provideSlashCommands
    cases hl : st.providers.lookup handle2 <;> simp [hS]

/-- C6 witness: with only handle 0 registered and only session 0 live,
handle 5 and session 7 are absent for every operation, also through the
registered handle 0. -/
theorem claim6_witness :
    (prepareInteractiveSession (mkState bothProvider plainSession) 5
      "init").2 = .ok none ∧
    (prepareInteractiveSession (mkState bothProvider plainSession) 5
      "init").1 = mkState bothProvider plainSession ∧
    resolveInteractiveRequest (mkState bothProvider plainSession) 5 7
      "ctx" = .ok none ∧
    provideInitialSuggestions (mkState bothProvider plainSession) 5 =
      .ok none ∧
    (provideInteractiveReply (mkState bothProvider plainSession) 5 7 "m"
      (fun _ => 0) 0).1 = .ok none ∧
    provideSlashCommands (mkState bothProvider plainSession) (fun k => k)
      5 7 = .ok none ∧
    resolveInteractiveRequest (mkState bothProvider plainSession) 0 7
      "ctx" = .ok none ∧
    (provideInteractiveReply (mkState bothProvider plainSession) 0 7 "m"
      (fun _ => 0) 0).1 = .ok none ∧
    provideSlashCommands (mkState bothProvider plainSession) (fun k => k)
      0 7 = .ok none :=
  claim6_not_found (mkState bothProvider plainSession) 5 0 7 "init" "ctx"
    "m" (fun _ => 0) 0 (fun k => k) rfl rfl

/-- Inversion of a successful preparation: the issued id is the session
counter's value and the counter advances by one. -/
theorem prepareInteractiveSession_ok_inv (st : State) (handle : Nat)
    (initialState : String) (st' : State) (d : InteractiveSessionDto)
    (hp : prepareInteractiveSession st handle initialState =
      (st', .ok (some d))) :
    d.id = st.nextId ∧ st'.nextId = st.nextId + 1 := by
  unfold prepareInteractiveSession at hp
  split at hp
  · simp at hp
  · split at hp
    · simp at hp
    · simp at hp
    · simp only [Prod.mk.injEq, Except.ok.injEq, Option.some.injEq] at hp
      obtain ⟨hst, hd⟩ := hp
      subst hst
      subst hd
      exact ⟨rfl, rfl⟩

/-- C7: session ids are issued by the dedicated counter — a successful
preparation returns the counter's value and bumps it, so two successive
successful preparations give `d2.id = d1.id + 1 > d1.id` — the counter
starts at zero (as does the provider-handle counter), and each
registration issues the current handle-counter value and bumps it. -/
theorem claim7_monotonic_ids (st st3 : State) (h1 h2 : Nat)
    (i1 i2 ext pid : String) (p : InteractiveSessionProvider)
    (st1 st2 : State) (d1 d2 : InteractiveSessionDto)
    (hp1 : prepareInteractiveSession st h1 i1 = (st1, .ok (some d1)))
    (hp2 : prepareInteractiveSession st1 h2 i2 = (st2, .ok (some d2))) :
    d1.id = st.nextId ∧ d2.id = d1.id + 1 ∧ d1.id < d2.id ∧
    State.initial.nextId = 0 ∧ State.initial.pool = 0 ∧
    (registerInteractiveSessionProvider st3 ext pid p).2.1 = st3.pool ∧
    (registerInteractiveSessionProvider st3 ext pid p).1.pool =
      st3.pool + 1 := by
  obtain ⟨e1, e2⟩ := prepareInteractiveSession_ok_inv st h1 i1 st1 d1 hp1
  obtain ⟨e3, _⟩ := prepareInteractiveSession_ok_inv st1 h2 i2 st2 d2 hp2
  refine ⟨e1, by omega, by omega, rfl, rfl, rfl, rfl⟩

/-- C7 witness: two concrete successful preparations from `prepState`
yield ids 0 and 1. -/
theorem claim7_witness :
    prepDto0.id = prepState.nextId ∧ prepDto1.id = prepDto0.id + 1 ∧
    prepDto0.id < prepDto1.id ∧ State.initial.nextId = 0 ∧
    State.initial.pool = 0 ∧
    (registerInteractiveSessionProvider State.initial "ext" "pid"
      noCapProvider).2.1 = State.initial.pool ∧
    (registerInteractiveSessionProvider State.initial "ext" "pid"
      noCapProvider).1.pool = State.initial.pool + 1 :=
  claim7_monotonic_ids prepState State.initial 0 0 "x" "y" "ext" "pid"
    noCapProvider prepState1 prepState2 prepDto0 prepDto1 rfl rfl

/-- C8, the claim as stated, is false of the code: against the concrete
progressive provider with a clock that reads 0 at the first report, two
increments are emitted (both forwarded) yet the response's
`firstProgress` is 0 — so `firstProgress` is not "zero only if zero
increments were emitted", and not positive when increments were
emitted. -/
theorem claim8_counterexample :
    provideInteractiveReply (mkState progProvider plainSession) 0 0 "m"
        (fun _ => 0) 0 =
      (.ok (some
        { followups := some ["prog"]
          commandFollowups := none
          errorDetails := none
          timings := { firstProgress := 0, totalElapsed := 0 } }),
       [Event.progress 0 0 "p1", Event.progress 0 0 "p2"]) :=
  rfl

/-- C8 (amended): in the progressive mode `firstProgress` is recorded at
the first emitted increment only — it equals the clock reading at the
first report, later increments (and later clock readings) do not change
it — it is zero when zero increments were emitted, and it is at most
`totalElapsed` whenever the clock is monotone; it can be zero even with
increments emitted, when no time elapsed before the first one. -/
theorem claim8_first_progress (st : State) (handle sessionId : Nat)
    (message : String) (ticks ticks2 : Nat → Nat) (endTick : Nat)
    (entry : ProviderWrapper) (sess : InteractiveSession)
    (hE : st.providers.lookup handle = some entry)
    (hS : st.sessions.lookup sessionId = some sess)
    (hNoSync : entry.provider.provideResponse = none)
    (g : InteractiveSession → String → ProgressiveRun)
    (hG : entry.provider.provideResponseWithProgress = some g) :
    ∃ dto,
      (provideInteractiveReply st handle sessionId message ticks
        endTick).1 = .ok (some dto) ∧
      dto.timings.totalElapsed = endTick ∧
      ((g sess message).increments = [] →
        dto.timings.firstProgress = 0) ∧
      ((g sess message).increments ≠ [] →
        dto.timings.firstProgress = ticks 0) ∧
      ((g sess message).increments ≠ [] → ticks 0 ≤ endTick →
        dto.timings.firstProgress ≤ dto.timings.totalElapsed) ∧
      (ticks2 0 = ticks 0 →
        provideInteractiveReply st handle sessionId message ticks2
          endTick =
        provideInteractiveReply st handle sessionId message ticks
          endTick) := by
  have hrw : ∀ tk : Nat → Nat,
      provideInteractiveReply st handle sessionId message tk endTick =
        (.ok (some (progressiveDto (g sess message) tk endTick)),
         (g sess message).increments.map
           (Event.progress handle sessionId) ++
           (progressiveCatch (g sess message)).2 ++
           trySaveState sessionId sess) := by
    intro tk
    rw [provideInteractiveReply_dispatch st handle sessionId message tk
      endTick entry sess hE hS, hNoSync, hG]
    show progressiveBranch handle sessionId sess (g sess message) tk
      endTick = _
    rw [progressiveBranch_eq]
  refine ⟨progressiveDto (g sess message) ticks endTick,
    by rw [hrw ticks], rfl, ?_, ?_, ?_, ?_⟩
  · intro h
    simp [progressiveDto, h]
  · intro h
    rcases hinc : (g sess message).increments with _ | ⟨c, rest⟩
    · exact absurd hinc h
    · simp [progressiveDto, hinc]
  · intro h hle
    rcases hinc : (g sess message).increments with _ | ⟨c, rest⟩
    · exact absurd hinc h
    · simpa [progressiveDto, hinc] using hle
  · intro h2
    rw [hrw ticks, hrw ticks2]
    have heq : progressiveDto (g sess message) ticks2 endTick =
        progressiveDto (g sess message) ticks endTick := by
      unfold progressiveDto
      rcases (g sess message).increments with _ | ⟨c, rest⟩
      · rfl
      · simp [h2]
    rw [heq]

/-- C8 witness: the concrete progressive provider with clock reading 4 at
every report and 9 at the end. -/
theorem claim8_witness :
    ∃ dto,
      (provideInteractiveReply (mkState progProvider plainSession) 0 0
        "m" (fun _ => 4) 9).1 = .ok (some dto) ∧
      dto.timings.totalElapsed = 9 ∧
      (progRunOk.increments = [] → dto.timings.firstProgress = 0) ∧
      (progRunOk.increments ≠ [] → dto.timings.firstProgress = 4) ∧
      (progRunOk.increments ≠ [] → 4 ≤ 9 →
        dto.timings.firstProgress ≤ dto.timings.totalElapsed) ∧
      ((fun i => 4 + i) 0 = 4 →
        provideInteractiveReply (mkState progProvider plainSession) 0 0
          "m" (fun i => 4 + i) 9 =
        provideInteractiveReply (mkState progProvider plainSession) 0 0
          "m" (fun _ => 4) 9) :=
  claim8_first_progress (mkState progProvider plainSession) 0 0 "m"
    (fun _ => 4) (fun i => 4 + i) 9 ⟨"ext", progProvider⟩ plainSession
    rfl rfl rfl (fun _ _ => progRunOk) rfl

/-- C9: when slash-command enumeration returns a sequence, each returned
descriptor agrees with its source descriptor on every field except
`kind`, which equals the shared conversion applied to the source
descriptor's `kind`. -/
theorem claim9_slash_kind_conversion (st : State) (convKind : Nat → Nat)
    (handle sessionId i : Nat) (entry : ProviderWrapper)
    (sess : InteractiveSession)
    (f : InteractiveSession → Except Err (Option (List SlashCommand)))
    (cmds : List SlashCommand)
    (hE : st.providers.lookup handle = some entry)
    (hS : st.sessions.lookup sessionId = some sess)
    (hF : entry.provider.provideSlashCommands = some f)
    (hC : f sess = .ok (some cmds))
    (hi : i < cmds.length) :
    ∃ out,
      provideSlashCommands st convKind handle sessionId =
        .ok (some out) ∧
      out.length = cmds.length ∧
      ∃ hi2 : i < out.length,
        (out.get ⟨i, hi2⟩).command = (cmds.get ⟨i, hi⟩).command ∧
        (out.get ⟨i, hi2⟩).detail = (cmds.get ⟨i, hi⟩).detail ∧
        (out.get ⟨i, hi2⟩).kind = convKind ((cmds.get ⟨i, hi⟩).kind) := by
  have hmain : provideSlashCommands st convKind handle sessionId =
      .ok (some (cmds.map fun c => { c with kind := convKind c.kind })) := by
    simp only [provideSlashCommands, hE, hS, hF, hC]
  refine ⟨_, hmain, by simp, ?_⟩
  have hi2 : i <
      (cmds.map fun c => { c with kind := convKind c.kind }).length := by
    simpa using hi
  exact ⟨hi2, by simp [List.get_eq_getElem], by simp [List.get_eq_getElem],
    by simp [List.get_eq_getElem]⟩

/-- C9 witness: the concrete two-command provider under the conversion
adding 10 to the kind, checked at index 0. -/
theorem claim9_witness :
    ∃ out,
      provideSlashCommands (mkState slashProvider plainSession)
        (fun k => k + 10) 0 0 = .ok (some out) ∧
      out.length =
        ([{ command := "fix", detail := some "fix it", kind := 1 },
          { command := "explain", detail := none, kind := 4 }] :
          List SlashCommand).length ∧
      ∃ hi2 : 0 < out.length,
        (out.get ⟨0, hi2⟩).command =
          (([{ command := "fix", detail := some "fix it", kind := 1 },
             { command := "explain", detail := none, kind := 4 }] :
             List SlashCommand).get ⟨0, by simp⟩).command ∧
        (out.get ⟨0, hi2⟩).detail =
          (([{ command := "fix", detail := some "fix it", kind := 1 },
             { command := "explain", detail := none, kind := 4 }] :
             List SlashCommand).get ⟨0, by simp⟩).detail ∧
        (out.get ⟨0, hi2⟩).kind = (fun k => k + 10)
          ((([{ command := "fix", detail := some "fix it", kind := 1 },
              { command := "explain", detail := none, kind := 4 }] :
              List SlashCommand).get ⟨0, by simp⟩).kind) :=
  claim9_slash_kind_conversion (mkState slashProvider plainSession)
    (fun k => k + 10) 0 0 0 ⟨"ext", slashProvider⟩ plainSession
    (fun _ => .ok (some
      [{ command := "fix", detail := some "fix it", kind := 1 },
       { command := "explain", detail := none, kind := 4 }]))
    [{ command := "fix", detail := some "fix it", kind := 1 },
     { command := "explain", detail := none, kind := 4 }]
    rfl rfl rfl rfl (by simp)

/-- C10: when `prepareSession` yields no session the operation returns
absent with the state unchanged, and when it throws the exception
propagates with the state unchanged — in both cases no session id is
consumed, so any next successful preparation from that state receives the
id that would otherwise have been issued (`st.nextId`). -/
theorem claim10_prepare_failure_no_alloc (st : State)
    (handle handle2 : Nat) (stateNone stateErr init2 : String)
    (entry : ProviderWrapper) (st2 : State)
    (d2 : InteractiveSessionDto) (e : Err)
    (hE : st.providers.lookup handle = some entry)
    (hNone : entry.provider.prepareSession stateNone = .ok none)
    (hErr : entry.provider.prepareSession stateErr = .error e)
    (hSucc : prepareInteractiveSession st handle2 init2 =
      (st2, .ok (some d2))) :
    prepareInteractiveSession st handle stateNone = (st, .ok none) ∧
    prepareInteractiveSession st handle stateErr = (st, .error e) ∧
    d2.id = st.nextId := by
  refine ⟨?_, ?_,
    (prepareInteractiveSession_ok_inv st handle2 init2 st2 d2 hSucc).1⟩
  · simp only [prepareInteractiveSession, hE, hNone]
  · simp only [prepareInteractiveSession, hE, hErr]

/-- C10 witness: the concrete flaky provider — preparation with `"none"`
returns absent, with `"boom"` throws, and the successful preparation with
`"ok"` receives the untouched counter value 5. -/
theorem claim10_witness :
    prepareInteractiveSession flakyState 0 "none" =
      (flakyState, .ok none) ∧
    prepareInteractiveSession flakyState 0 "boom" =
      (flakyState, .error ⟨"prepare boom"⟩) ∧
    flakyDto.id = flakyState.nextId :=
  claim10_prepare_failure_no_alloc flakyState 0 0 "none" "boom" "ok"
    ⟨"ext", flakyPrepareProvider⟩ flakyState1 flakyDto
    ⟨"prepare boom"⟩ rfl rfl rfl rfl

end ExtHostInteractiveSession
